import Mathlib

/-!
Verification of the go-cloud runtimeconfigurator watcher and the mysql URL
multiplexer, as a shallow embedding.

Times are modelled as integers (nanoseconds, matching Go time.Duration and
time.Time at nanosecond resolution), byte slices as lists of naturals, the
injectable decoder as a function parameter, and the gRPC fetch outcome as an
explicit inductive.  One iteration of the Watch polling loop (everything
after the timer wait) is the function watchStep; the two calls to time.Now()
in an iteration are the two time parameters.
-/

namespace RuntimeConfigurator

/-- Proto timestamp message (google.protobuf.Timestamp): seconds and nanos. -/
structure PTimestamp where
  seconds : Int
  nanos : Int
  deriving DecidableEq

/-- Validity bounds that ptypes.Timestamp enforces: seconds within
[-62135596800, 253402300800) and nanos within [0, 1e9). -/
def validTimestamp (ts : PTimestamp) : Bool :=
  decide (-62135596800 ≤ ts.seconds) && decide (ts.seconds < 253402300800) &&
    decide (0 ≤ ts.nanos) && decide (ts.nanos < 1000000000)

/-- Contents of a pb.Variable: either a binary payload (Variable_Value) or a
text payload (Variable_Text), the latter already viewed as its bytes. -/
inductive Contents where
  | value (b : List Nat)
  | text (s : List Nat)
  deriving DecidableEq

/-- The pb.Variable message as far as Watch reads it: optional contents and
an optional update-time timestamp. -/
structure ProtoVariable where
  contents : Option Contents
  updateTime : Option PTimestamp
  deriving DecidableEq

/-- bytesFromProto: a bytes payload is returned as is, anything else goes
through GetText, which yields the empty string when contents are absent. -/
def bytesFromProto (vpb : ProtoVariable) : List Nat :=
  match vpb.contents with
  | some (Contents.value b) => b
  | some (Contents.text s) => s
  | none => []

/-- parseUpdateTime: ptypes.Timestamp on the update_time field; errors when
the field is absent or outside the valid range.  The parsed time is
seconds * 1e9 + nanos, in integer nanoseconds. -/
def parseUpdateTime (vpb : ProtoVariable) : Except Unit Int :=
  match vpb.updateTime with
  | none => Except.error ()
  | some ts =>
    if validTimestamp ts then Except.ok (ts.seconds * 1000000000 + ts.nanos)
    else Except.error ()

/-- Element loop of bytesNotEqual: walks the two lists in step and returns
true at the first differing element (the early return of the source loop). -/
def bytesNotEqualLoop : List Nat → List Nat → Bool
  | x :: xs, y :: ys => if x ≠ y then true else bytesNotEqualLoop xs ys
  | _, _ => false

/-- bytesNotEqual: true when the lengths differ, otherwise the result of the
element loop. -/
def bytesNotEqual (a b : List Nat) : Bool :=
  if a.length ≠ b.length then true else bytesNotEqualLoop a b

/-- Element loop of bytesNotEqual instrumented with the number of element
comparisons the source loop performs before it returns. -/
def bytesNotEqualLoopSteps : List Nat → List Nat → Bool × Nat
  | x :: xs, y :: ys =>
    if x ≠ y then (true, 1)
    else
      let r := bytesNotEqualLoopSteps xs ys
      (r.1, r.2 + 1)
  | _, _ => (false, 0)

/-- bytesNotEqual instrumented with the element-comparison count; the length
test performs no element comparison. -/
def bytesNotEqualSteps (a b : List Nat) : Bool × Nat :=
  if a.length ≠ b.length then (true, 0) else bytesNotEqualLoopSteps a b

/-- Index of the first position at which the two lists differ (0 when the
heads differ; meaningful only when such a position exists). -/
def firstDiff : List Nat → List Nat → Nat
  | x :: xs, y :: ys => if x ≠ y then 0 else firstDiff xs ys + 1
  | _, _ => 0

/-- Mutable state of a watcher: the fields of the Go watcher struct that the
Watch loop reads and writes.  The decoder is a function parameter of
watchStep and the name plays no role in the loop. -/
structure Watcher where
  waitTime : Int
  lastRPCTime : Int
  bytes : List Nat
  isDeleted : Bool
  updateTime : Int
  deriving DecidableEq

/-- gRPC status code as far as Watch distinguishes it: NotFound versus any
other code, the latter carried as its numeric value. -/
inductive GrpcCode where
  | notFound
  | other (code : Nat)
  deriving DecidableEq

/-- Outcome of the GetVariable RPC: a proto on success, otherwise an error
whose status is some code when status.FromError can classify it and none
when it cannot. -/
inductive FetchOutcome where
  | ok (vpb : ProtoVariable)
  | err (st : Option GrpcCode)
  deriving DecidableEq

/-- Condition of line 195: the error is returned directly when the status
cannot be classified or its code is not NotFound. -/
def fatalRPCError : Option GrpcCode → Bool
  | none => true
  | some c => decide (c ≠ GrpcCode.notFound)

/-- Errors the Watch loop body can return: an invalid update-time timestamp,
a decoder failure, or the RPC error itself (with its status). -/
inductive WatchError where
  | invalidTimestamp
  | decodeFail
  | rpc (st : Option GrpcCode)
  deriving DecidableEq

/-- What one iteration of the Watch loop does after its fetch: return a new
driver.Variable (decoded value and update time), return an error, or loop
back to waiting. -/
inductive StepOutcome (Val : Type) where
  | emit (value : Val) (updateTime : Int)
  | fail (e : WatchError)
  | loop
  deriving DecidableEq

/-- One iteration of watcher.Watch after the timer wait (lines 168 to 205).
The fetch outcome is passed in; rpcNow is the time.Now() recorded into
lastRPCTime right after the RPC, and delNow the time.Now().UTC() stamped
into updateTime on a deletion transition.  Note the source updates bytes,
updateTime and isDeleted before calling the decoder. -/
def watchStep {Val : Type} (decode : List Nat → Option Val) (w : Watcher) :
    FetchOutcome → Int → Int → Watcher × StepOutcome Val
  | FetchOutcome.ok vpb, rpcNow, _ =>
    match parseUpdateTime vpb with
    | Except.error _ =>
      ({ w with lastRPCTime := rpcNow }, StepOutcome.fail WatchError.invalidTimestamp)
    | Except.ok updateTime =>
      let bytes := bytesFromProto vpb
      if w.isDeleted || bytesNotEqual w.bytes bytes then
        match decode bytes with
        | none =>
          ({ w with
              lastRPCTime := rpcNow
              bytes := bytes
              updateTime := updateTime
              isDeleted := false },
            StepOutcome.fail WatchError.decodeFail)
        | some val =>
          ({ w with
              lastRPCTime := rpcNow
              bytes := bytes
              updateTime := updateTime
              isDeleted := false },
            StepOutcome.emit val updateTime)
      else ({ w with lastRPCTime := rpcNow }, StepOutcome.loop)
  | FetchOutcome.err st, rpcNow, delNow =>
    if fatalRPCError st then
      ({ w with lastRPCTime := rpcNow }, StepOutcome.fail (WatchError.rpc st))
    else if !w.isDeleted then
      ({ w with
          lastRPCTime := rpcNow
          isDeleted := true
          updateTime := delNow },
        StepOutcome.fail (WatchError.rpc st))
    else ({ w with lastRPCTime := rpcNow }, StepOutcome.loop)

/-- Duration handed to time.NewTimer at line 160:
waitTime - (now - lastRPCTime). -/
def timerDuration (w : Watcher) (now : Int) : Int :=
  w.waitTime - (now - w.lastRPCTime)

/-- Options handed to NewVariable; WaitTime is the only option the watcher
keeps as state (Decode is the injected function parameter of watchStep). -/
structure WatchOptions where
  waitTime : Int
  deriving DecidableEq

/-- defaultWaitTimeout is 10 * time.Minute, in nanoseconds. -/
def defaultWaitTimeout : Int := 10 * 60 * 1000000000

/-- Configuration errors of NewVariable. -/
inductive ConfigError where
  | negativeWaitTime
  deriving DecidableEq

/-- Watcher literal built at line 98: lastRPCTime biased one waitTime into
the past, all cache fields at their zero values. -/
def mkInitial (waitTime now : Int) : Watcher :=
  { waitTime := waitTime
    lastRPCTime := now - waitTime
    bytes := []
    isDeleted := false
    updateTime := 0 }

/-- Client.NewVariable, lines 81 to 104: nil options become the zero
options; WaitTime 0 is replaced by the default and a negative WaitTime is
rejected with a configuration error before any watcher exists. -/
def newVariable (opts : Option WatchOptions) (now : Int) : Except ConfigError Watcher :=
  let given : Int :=
    match opts with
    | none => 0
    | some o => o.waitTime
  if given = 0 then Except.ok (mkInitial defaultWaitTimeout now)
  else if given < 0 then Except.error ConfigError.negativeWaitTime
  else Except.ok (mkInitial given now)

end RuntimeConfigurator

namespace MySQLMux

/-- A parsed URL as OpenMySQLURL reads it: the scheme and the rest. -/
structure URL where
  scheme : String
  rest : String

/-- Result of an open: a database handle or one of the two dispatch errors
(the message contents are abstracted into the constructor). -/
inductive SQLResult (DB : Type) where
  | ok (db : DB)
  | errNoScheme
  | errNoProvider (scheme : String)

/-- True when the result is an error. -/
def SQLResult.isErr {DB : Type} : SQLResult DB → Bool
  | SQLResult.ok _ => false
  | _ => true

/-- The multiplexer: its registered scheme map, as an association list. -/
structure URLMux (DB : Type) where
  schemes : List (String × (URL → SQLResult DB))

/-- URLMux.OpenMySQLURL, lines 105 to 117: an empty scheme is an error, a
nil receiver (modelled as none) skips the map lookup so the opener stays
nil, a missing opener is an error, and otherwise the registered opener is
invoked on the URL. -/
def openMySQLURL {DB : Type} (mux : Option (URLMux DB)) (u : URL) : SQLResult DB :=
  if u.scheme = "" then SQLResult.errNoScheme
  else
    let opener : Option (URL → SQLResult DB) :=
      match mux with
      | none => none
      | some m => m.schemes.lookup u.scheme
    match opener with
    | none => SQLResult.errNoProvider u.scheme
    | some op => op u

end MySQLMux

namespace RuntimeConfigurator

theorem bytesNotEqualLoop_false_iff : ∀ (a b : List Nat), a.length = b.length →
    (bytesNotEqualLoop a b = false ↔ a = b) := by
  intro a
  induction a with
  | nil =>
    intro b h
    cases b with
    | nil => simp [bytesNotEqualLoop]
    | cons y ys => simp at h
  | cons x xs ih =>
    intro b h
    cases b with
    | nil => simp at h
    | cons y ys =>
      have h2 : xs.length = ys.length := by simpa using h
      by_cases hxy : x = y
      · subst hxy
        simp [bytesNotEqualLoop, ih ys h2]
      · simp [bytesNotEqualLoop, hxy]

theorem bytesNotEqual_false_iff (a b : List Nat) : bytesNotEqual a b = false ↔ a = b := by
  by_cases h : a.length = b.length
  · have he : bytesNotEqual a b = bytesNotEqualLoop a b := by simp [bytesNotEqual, h]
    rw [he]
    exact bytesNotEqualLoop_false_iff a b h
  · have he : bytesNotEqual a b = true := by simp [bytesNotEqual, h]
    rw [he]
    constructor
    · intro hc; simp at hc
    · intro hab; exact absurd (congrArg List.length hab) h

theorem bytesNotEqualLoopSteps_fst : ∀ (a b : List Nat),
    (bytesNotEqualLoopSteps a b).1 = bytesNotEqualLoop a b := by
  intro a
  induction a with
  | nil => intro b; cases b <;> simp [bytesNotEqualLoopSteps, bytesNotEqualLoop]
  | cons x xs ih =>
    intro b
    cases b with
    | nil => simp [bytesNotEqualLoopSteps, bytesNotEqualLoop]
    | cons y ys =>
      by_cases hxy : x = y
      · simp [bytesNotEqualLoopSteps, bytesNotEqualLoop, hxy, ih ys]
      · simp [bytesNotEqualLoopSteps, bytesNotEqualLoop, hxy]

theorem bytesNotEqualLoopSteps_snd : ∀ (a b : List Nat), a.length = b.length →
    (bytesNotEqualLoopSteps a b).2 = (if a = b then a.length else firstDiff a b + 1) := by
  intro a
  induction a with
  | nil =>
    intro b h
    cases b with
    | nil => simp [bytesNotEqualLoopSteps]
    | cons y ys => simp at h
  | cons x xs ih =>
    intro b h
    cases b with
    | nil => simp at h
    | cons y ys =>
      have h2 : xs.length = ys.length := by simpa using h
      by_cases hxy : x = y
      · subst hxy
        by_cases hxsys : xs = ys
        · subst hxsys
          simp [bytesNotEqualLoopSteps, ih xs rfl]
        · simp [bytesNotEqualLoopSteps, firstDiff, hxsys, ih ys h2]
      · simp [bytesNotEqualLoopSteps, firstDiff, hxy]

theorem bytesNotEqualSteps_fst (a b : List Nat) :
    (bytesNotEqualSteps a b).1 = bytesNotEqual a b := by
  by_cases h : a.length = b.length
  · simp [bytesNotEqualSteps, bytesNotEqual, h, bytesNotEqualLoopSteps_fst]
  · simp [bytesNotEqualSteps, bytesNotEqual, h]

/-- Claim C3, counterexample: on [0, 0] versus [1, 0] (equal lengths, first
bytes differ) the source loop performs exactly one element comparison, not
the full length two: the helper does short-circuit at the first differing
byte, contrary to the claim. -/
theorem c3_counterexample :
    (bytesNotEqualSteps [0, 0] [1, 0]).2 = 1 ∧
    (bytesNotEqualSteps [0, 0] [1, 0]).2 ≠ [0, 0].length ∧
    bytesNotEqual [0, 0] [1, 0] = true := by
  decide

/-- Claim C3, amended: bytesNotEqual a b is false iff a and b are equal
(equal length and agreement at every index); differing lengths are reported
unequal with no element comparison at all; and on equal lengths the loop
short-circuits, performing first-difference-index + 1 element comparisons
when the lists differ and the full length of them when the lists are
equal. -/
theorem c3_bytesNotEqual_spec (a b : List Nat) :
    (bytesNotEqual a b = false ↔ a = b) ∧
    (a.length ≠ b.length → bytesNotEqual a b = true ∧ (bytesNotEqualSteps a b).2 = 0) ∧
    ((bytesNotEqualSteps a b).1 = bytesNotEqual a b) ∧
    (a.length = b.length →
      (bytesNotEqualSteps a b).2 = (if a = b then a.length else firstDiff a b + 1)) := by
  refine ⟨bytesNotEqual_false_iff a b, ?_, bytesNotEqualSteps_fst a b, ?_⟩
  · intro h
    exact ⟨by simp [bytesNotEqual, h], by simp [bytesNotEqualSteps, h]⟩
  · intro h
    have he : bytesNotEqualSteps a b = bytesNotEqualLoopSteps a b := by
      simp [bytesNotEqualSteps, h]
    rw [he]
    exact bytesNotEqualLoopSteps_snd a b h

/-- Claim C3, witness for the amended theorem: concrete discharges of both
hypothetical conjuncts. -/
theorem c3_witness :
    (bytesNotEqual [1] [] = true ∧ (bytesNotEqualSteps [1] []).2 = 0) ∧
    ((bytesNotEqualSteps [1, 2] [1, 3]).2 =
      (if ([1, 2] : List Nat) = [1, 3] then ([1, 2] : List Nat).length
        else firstDiff [1, 2] [1, 3] + 1)) := by
  exact ⟨(c3_bytesNotEqual_spec [1] []).2.1 (by decide),
    (c3_bytesNotEqual_spec [1, 2] [1, 3]).2.2.2 (by decide)⟩

end RuntimeConfigurator

namespace RuntimeConfigurator

/-- Claim C1, counterexample: a decode failure does not leave the cached
state as it was.  From cache [1] (not deleted), a successful fetch of [2]
with a valid timestamp whose decode fails returns the decode error with the
cache already overwritten to [2]. -/
theorem c1_counterexample :
    ((watchStep (fun _ => (none : Option Nat)) (Watcher.mk 600 0 [1] false 5)
        (FetchOutcome.ok (ProtoVariable.mk (some (Contents.value [2]))
          (some (PTimestamp.mk 1 0)))) 7 8).2 =
      StepOutcome.fail WatchError.decodeFail) ∧
    (watchStep (fun _ => (none : Option Nat)) (Watcher.mk 600 0 [1] false 5)
        (FetchOutcome.ok (ProtoVariable.mk (some (Contents.value [2]))
          (some (PTimestamp.mk 1 0)))) 7 8).1.bytes ≠ [1] := by
  decide

/-- Claim C1, amended: a malformed timestamp on a successful fetch returns
the parse error and leaves bytes, updateTime and isDeleted unchanged (only
lastRPCTime is recorded); a decode failure on changed or post-deletion
content returns the decode error, but only after the cache has already been
overwritten: bytes become the fetched bytes, updateTime the parsed
timestamp, and isDeleted false. -/
theorem c1_malformed_data {Val : Type} (decode : List Nat → Option Val)
    (w : Watcher) (vpb : ProtoVariable) (rpcNow delNow ut : Int) :
    (parseUpdateTime vpb = Except.error () →
      watchStep decode w (FetchOutcome.ok vpb) rpcNow delNow =
        ({ w with lastRPCTime := rpcNow }, StepOutcome.fail WatchError.invalidTimestamp)) ∧
    (parseUpdateTime vpb = Except.ok ut →
      (w.isDeleted || bytesNotEqual w.bytes (bytesFromProto vpb)) = true →
      decode (bytesFromProto vpb) = none →
      watchStep decode w (FetchOutcome.ok vpb) rpcNow delNow =
        ({ w with
            lastRPCTime := rpcNow
            bytes := bytesFromProto vpb
            updateTime := ut
            isDeleted := false },
          StepOutcome.fail WatchError.decodeFail)) := by
  constructor
  · intro h
    simp [watchStep, h]
  · intro hts hch hdec
    simp [watchStep, hts, hch, hdec]

/-- Claim C1, witness for the amended theorem: both branches at concrete
inputs. -/
theorem c1_witness :
    (watchStep (fun _ => (none : Option Nat)) (Watcher.mk 600 0 [1] false 5)
        (FetchOutcome.ok (ProtoVariable.mk (some (Contents.value [2])) none)) 7 8 =
      (Watcher.mk 600 7 [1] false 5, StepOutcome.fail WatchError.invalidTimestamp)) ∧
    (watchStep (fun _ => (none : Option Nat)) (Watcher.mk 600 0 [3] false 5)
        (FetchOutcome.ok (ProtoVariable.mk (some (Contents.value [4]))
          (some (PTimestamp.mk 1 0)))) 7 8 =
      (Watcher.mk 600 7 [4] false 1000000000, StepOutcome.fail WatchError.decodeFail)) := by
  exact ⟨(c1_malformed_data (fun _ => (none : Option Nat)) (Watcher.mk 600 0 [1] false 5)
      (ProtoVariable.mk (some (Contents.value [2])) none) 7 8 0).1 rfl,
    (c1_malformed_data (fun _ => (none : Option Nat)) (Watcher.mk 600 0 [3] false 5)
      (ProtoVariable.mk (some (Contents.value [4])) (some (PTimestamp.mk 1 0))) 7 8
      1000000000).2 rfl (by decide) rfl⟩

/-- Claim C2, counterexample: the mutual-exclusion invariant fails.  From a
state with non-empty cache [1] and the flag clear, a not-found fetch sets
isDeleted without clearing the cached bytes, so "non-empty cached bytes"
and "is deleted" hold simultaneously after the iteration. -/
theorem c2_counterexample :
    ((watchStep (fun b => (some b : Option (List Nat))) (Watcher.mk 600 0 [1] false 5)
        (FetchOutcome.err (some GrpcCode.notFound)) 7 8).1.isDeleted = true) ∧
    (watchStep (fun b => (some b : Option (List Nat))) (Watcher.mk 600 0 [1] false 5)
        (FetchOutcome.err (some GrpcCode.notFound)) 7 8).1.bytes ≠ [] := by
  decide

/-- Claim C2, amended: the deleted flag, not emptiness of the cached bytes,
is the authoritative state signal.  Every iteration that emits a value
leaves isDeleted false, every iteration that returns the not-found error
leaves isDeleted true, and a not-found iteration keeps the previous cached
bytes, so non-empty bytes and the deleted flag can hold together. -/
theorem c2_deletion_flag {Val : Type} (decode : List Nat → Option Val)
    (w : Watcher) (f : FetchOutcome) (rpcNow delNow : Int) (v : Val) (ut : Int) :
    ((watchStep decode w f rpcNow delNow).2 = StepOutcome.emit v ut →
      (watchStep decode w f rpcNow delNow).1.isDeleted = false) ∧
    ((watchStep decode w f rpcNow delNow).2 =
        StepOutcome.fail (WatchError.rpc (some GrpcCode.notFound)) →
      (watchStep decode w f rpcNow delNow).1.isDeleted = true) ∧
    (f = FetchOutcome.err (some GrpcCode.notFound) →
      (watchStep decode w f rpcNow delNow).1.bytes = w.bytes) := by
  cases f with
  | ok vpb =>
    refine ⟨?_, ?_, ?_⟩
    · cases hp : parseUpdateTime vpb with
      | error e => simp [watchStep, hp]
      | ok t =>
        cases hc : (w.isDeleted || bytesNotEqual w.bytes (bytesFromProto vpb)) with
        | false => simp [watchStep, hp, hc]
        | true =>
          cases hd : decode (bytesFromProto vpb) with
          | none => simp [watchStep, hp, hc, hd]
          | some vv => simp [watchStep, hp, hc, hd]
    · cases hp : parseUpdateTime vpb with
      | error e => simp [watchStep, hp]
      | ok t =>
        cases hc : (w.isDeleted || bytesNotEqual w.bytes (bytesFromProto vpb)) with
        | false => simp [watchStep, hp, hc]
        | true =>
          cases hd : decode (bytesFromProto vpb) with
          | none => simp [watchStep, hp, hc, hd]
          | some vv => simp [watchStep, hp, hc, hd]
    · intro h
      simp at h
  | err st =>
    cases hf : fatalRPCError st with
    | true =>
      refine ⟨?_, ?_, ?_⟩
      · simp [watchStep, hf]
      · intro h
        simp only [watchStep, hf, if_true] at h
        simp only [StepOutcome.fail.injEq, WatchError.rpc.injEq] at h
        rw [h] at hf
        simp [fatalRPCError] at hf
      · intro hst
        simp [watchStep, hf]
    | false =>
      cases hdel : w.isDeleted with
      | false =>
        refine ⟨?_, ?_, ?_⟩
        · simp [watchStep, hf, hdel]
        · intro h
          simp [watchStep, hf, hdel]
        · intro hst
          simp [watchStep, hf, hdel]
      | true =>
        refine ⟨?_, ?_, ?_⟩
        · simp [watchStep, hf, hdel]
        · simp [watchStep, hf, hdel]
        · intro hst
          simp [watchStep, hf, hdel]

/-- Claim C2, witness for the amended theorem: a concrete emitting
iteration leaves the flag clear, a concrete not-found transition leaves it
set with the cached bytes kept. -/
theorem c2_witness :
    ((watchStep (fun _ => (some 1 : Option Nat)) (Watcher.mk 600 0 [1] false 5)
        (FetchOutcome.ok (ProtoVariable.mk (some (Contents.value [2]))
          (some (PTimestamp.mk 1 0)))) 7 8).1.isDeleted = false) ∧
    ((watchStep (fun _ => (some 1 : Option Nat)) (Watcher.mk 600 0 [2] false 5)
        (FetchOutcome.err (some GrpcCode.notFound)) 7 8).1.isDeleted = true) ∧
    ((watchStep (fun _ => (some 1 : Option Nat)) (Watcher.mk 600 0 [2] false 5)
        (FetchOutcome.err (some GrpcCode.notFound)) 7 8).1.bytes =
      (Watcher.mk 600 0 [2] false 5).bytes) := by
  refine ⟨?_, ?_, ?_⟩
  · exact (c2_deletion_flag (fun _ => (some 1 : Option Nat)) (Watcher.mk 600 0 [1] false 5)
      (FetchOutcome.ok (ProtoVariable.mk (some (Contents.value [2]))
        (some (PTimestamp.mk 1 0)))) 7 8 1 1000000000).1 (by decide)
  · exact (c2_deletion_flag (fun _ => (some 1 : Option Nat)) (Watcher.mk 600 0 [2] false 5)
      (FetchOutcome.err (some GrpcCode.notFound)) 7 8 1 1000000000).2.1 (by decide)
  · exact (c2_deletion_flag (fun _ => (some 1 : Option Nat)) (Watcher.mk 600 0 [2] false 5)
      (FetchOutcome.err (some GrpcCode.notFound)) 7 8 1 1000000000).2.2 rfl

end RuntimeConfigurator

namespace RuntimeConfigurator

/-- Claim C4, counterexample: successive successful returns can repeat.
With a decoder that fails exactly on [9]: from the initial state a fetch of
[1] returns the value 1 at time 1e9; a fetch of [9] returns a decode error
but overwrites the cache to [9]; the next fetch of [1] again returns the
value 1 at time 1e9 — byte-identical content and an identical returned
variable, with no deletion in between, so a successful return is not always
strictly new information relative to the previous successful return. -/
theorem c4_counterexample :
    (watchStep (fun b => if b = [9] then (none : Option Nat) else some 1)
        (Watcher.mk 600 0 [] false 0)
        (FetchOutcome.ok (ProtoVariable.mk (some (Contents.value [1]))
          (some (PTimestamp.mk 1 0)))) 1 1 =
      (Watcher.mk 600 1 [1] false 1000000000, StepOutcome.emit 1 1000000000)) ∧
    (watchStep (fun b => if b = [9] then (none : Option Nat) else some 1)
        (Watcher.mk 600 1 [1] false 1000000000)
        (FetchOutcome.ok (ProtoVariable.mk (some (Contents.value [9]))
          (some (PTimestamp.mk 1 0)))) 2 2 =
      (Watcher.mk 600 2 [9] false 1000000000, StepOutcome.fail WatchError.decodeFail)) ∧
    (watchStep (fun b => if b = [9] then (none : Option Nat) else some 1)
        (Watcher.mk 600 2 [9] false 1000000000)
        (FetchOutcome.ok (ProtoVariable.mk (some (Contents.value [1]))
          (some (PTimestamp.mk 1 0)))) 3 3 =
      (Watcher.mk 600 3 [1] false 1000000000, StepOutcome.emit 1 1000000000)) := by
  refine ⟨?_, ?_, ?_⟩ <;> decide

/-- Claim C4, amended: when a successful fetch carries bytes equal to the
cached bytes and the deleted flag is clear, the iteration loops back
without returning and changes nothing but lastRPCTime; and every emitted
value arises only from a deleted state or from bytes that differ from the
cache.  A successful return can still repeat the value of the previous
successful return when a decode-failing iteration overwrote the cache in
between. -/
theorem c4_no_spurious {Val : Type} (decode : List Nat → Option Val)
    (w : Watcher) (vpb : ProtoVariable) (rpcNow delNow ut : Int) (v : Val) :
    (parseUpdateTime vpb = Except.ok ut →
      w.isDeleted = false →
      bytesNotEqual w.bytes (bytesFromProto vpb) = false →
      watchStep decode w (FetchOutcome.ok vpb) rpcNow delNow =
        ({ w with lastRPCTime := rpcNow }, StepOutcome.loop)) ∧
    ((watchStep decode w (FetchOutcome.ok vpb) rpcNow delNow).2 =
        StepOutcome.emit v ut →
      w.isDeleted = true ∨ bytesNotEqual w.bytes (bytesFromProto vpb) = true) := by
  constructor
  · intro hts hdel hne
    simp [watchStep, hts, hdel, hne]
  · intro h
    cases hdel : w.isDeleted with
    | true => exact Or.inl rfl
    | false =>
      cases hne : bytesNotEqual w.bytes (bytesFromProto vpb) with
      | true => exact Or.inr rfl
      | false =>
        cases hp : parseUpdateTime vpb with
        | error e => simp [watchStep, hp] at h
        | ok t => simp [watchStep, hp, hdel, hne] at h

/-- Claim C4, witness for the amended theorem: a concrete unchanged fetch
loops, and a concrete emission comes from changed bytes. -/
theorem c4_witness :
    (watchStep (fun _ => (some 1 : Option Nat)) (Watcher.mk 600 0 [1] false 5)
        (FetchOutcome.ok (ProtoVariable.mk (some (Contents.value [1]))
          (some (PTimestamp.mk 1 0)))) 7 8 =
      (Watcher.mk 600 7 [1] false 5, StepOutcome.loop)) ∧
    ((Watcher.mk 600 0 [1] false 5).isDeleted = true ∨
      bytesNotEqual (Watcher.mk 600 0 [1] false 5).bytes
        (bytesFromProto (ProtoVariable.mk (some (Contents.value [2]))
          (some (PTimestamp.mk 1 0)))) = true) := by
  constructor
  · exact (c4_no_spurious (fun _ => (some 1 : Option Nat)) (Watcher.mk 600 0 [1] false 5)
      (ProtoVariable.mk (some (Contents.value [1])) (some (PTimestamp.mk 1 0)))
      7 8 1000000000 1).1 rfl rfl (by decide)
  · exact (c4_no_spurious (fun _ => (some 1 : Option Nat)) (Watcher.mk 600 0 [1] false 5)
      (ProtoVariable.mk (some (Contents.value [2])) (some (PTimestamp.mk 1 0)))
      7 8 1000000000 1).2 (by decide)

/-- Claim C5: a not-found fetch on a watcher whose last known state is not
deleted sets the deleted flag, stamps updateTime with the current local
time, keeps the cached bytes, and returns the not-found error; on an
already-deleted watcher the iteration returns nothing and loops silently
with no state change beyond lastRPCTime — so the transition is reported
exactly once. -/
theorem c5_not_found_transition {Val : Type} (decode : List Nat → Option Val)
    (w : Watcher) (rpcNow delNow : Int) :
    (w.isDeleted = false →
      watchStep decode w (FetchOutcome.err (some GrpcCode.notFound)) rpcNow delNow =
        ({ w with
            lastRPCTime := rpcNow
            isDeleted := true
            updateTime := delNow },
          StepOutcome.fail (WatchError.rpc (some GrpcCode.notFound)))) ∧
    (w.isDeleted = true →
      watchStep decode w (FetchOutcome.err (some GrpcCode.notFound)) rpcNow delNow =
        ({ w with lastRPCTime := rpcNow }, StepOutcome.loop)) := by
  constructor
  · intro hdel
    simp [watchStep, fatalRPCError, hdel]
  · intro hdel
    simp [watchStep, fatalRPCError, hdel]

/-- Claim C5, witness: the transition at a concrete state, then silence at
the already-deleted state. -/
theorem c5_witness :
    (watchStep (fun _ => (some 1 : Option Nat)) (Watcher.mk 600 0 [2] false 5)
        (FetchOutcome.err (some GrpcCode.notFound)) 7 8 =
      (Watcher.mk 600 7 [2] true 8,
        StepOutcome.fail (WatchError.rpc (some GrpcCode.notFound)))) ∧
    (watchStep (fun _ => (some 1 : Option Nat)) (Watcher.mk 600 7 [2] true 8)
        (FetchOutcome.err (some GrpcCode.notFound)) 9 10 =
      (Watcher.mk 600 9 [2] true 8, StepOutcome.loop)) := by
  exact ⟨(c5_not_found_transition (fun _ => (some 1 : Option Nat))
      (Watcher.mk 600 0 [2] false 5) 7 8).1 rfl,
    (c5_not_found_transition (fun _ => (some 1 : Option Nat))
      (Watcher.mk 600 7 [2] true 8) 9 10).2 rfl⟩

/-- Claim C6: with the deleted flag set, the next successful fetch with a
parseable timestamp and decodable bytes emits the decoded value and clears
the flag — with no condition on the fetched bytes, so this holds even when
they are byte-identical to the content cached before the deletion. -/
theorem c6_redelivery_after_deletion {Val : Type} (decode : List Nat → Option Val)
    (w : Watcher) (vpb : ProtoVariable) (rpcNow delNow ut : Int) (v : Val)
    (hdel : w.isDeleted = true)
    (hts : parseUpdateTime vpb = Except.ok ut)
    (hdec : decode (bytesFromProto vpb) = some v) :
    watchStep decode w (FetchOutcome.ok vpb) rpcNow delNow =
      ({ w with
          lastRPCTime := rpcNow
          bytes := bytesFromProto vpb
          updateTime := ut
          isDeleted := false },
        StepOutcome.emit v ut) := by
  simp [watchStep, hts, hdel, hdec]

/-- Claim C6, witness: a deleted watcher whose old cache is [1] receives
[1] again and still emits, clearing the flag. -/
theorem c6_witness :
    watchStep (fun b => (some b.length : Option Nat)) (Watcher.mk 600 0 [1] true 5)
        (FetchOutcome.ok (ProtoVariable.mk (some (Contents.value [1]))
          (some (PTimestamp.mk 1 0)))) 7 8 =
      (Watcher.mk 600 7 [1] false 1000000000, StepOutcome.emit 1 1000000000) := by
  exact c6_redelivery_after_deletion (fun b => (some b.length : Option Nat))
    (Watcher.mk 600 0 [1] true 5)
    (ProtoVariable.mk (some (Contents.value [1])) (some (PTimestamp.mk 1 0)))
    7 8 1000000000 1 rfl rfl rfl

end RuntimeConfigurator

namespace RuntimeConfigurator

/-- Claim C7: NewVariable rejects a negative WaitTime with a configuration
error before any watcher exists, and substitutes the documented default of
10 minutes (600e9 nanoseconds) when the options are absent or WaitTime is
zero. -/
theorem c7_wait_time_validation (o : WatchOptions) (now : Int) :
    (o.waitTime < 0 →
      newVariable (some o) now = Except.error ConfigError.negativeWaitTime) ∧
    (newVariable none now = Except.ok (mkInitial defaultWaitTimeout now)) ∧
    (o.waitTime = 0 →
      newVariable (some o) now = Except.ok (mkInitial defaultWaitTimeout now)) ∧
    defaultWaitTimeout = 600000000000 := by
  refine ⟨?_, ?_, ?_, ?_⟩
  · intro hneg
    have h0 : o.waitTime ≠ 0 := by omega
    simp [newVariable, h0, hneg]
  · simp [newVariable]
  · intro h0
    simp [newVariable, h0]
  · rfl

/-- Claim C7, witness: a negative WaitTime of -5 is rejected, WaitTime 0
gets the default. -/
theorem c7_witness :
    (newVariable (some (WatchOptions.mk (-5))) 0 =
      Except.error ConfigError.negativeWaitTime) ∧
    (newVariable (some (WatchOptions.mk 0)) 3 =
      Except.ok (mkInitial defaultWaitTimeout 3)) := by
  exact ⟨(c7_wait_time_validation (WatchOptions.mk (-5)) 0).1 (by decide),
    (c7_wait_time_validation (WatchOptions.mk 0) 3).2.2.1 rfl⟩

/-- Claim C8: every watcher NewVariable constructs has lastRPCTime equal to
the construction time minus its wait interval, so at any time at or after
construction the duration Watch hands to its timer is non-positive: the
first fetch proceeds without waiting the full interval. -/
theorem c8_first_watch_immediate (opts : Option WatchOptions) (now t : Int)
    (w : Watcher) (hw : newVariable opts now = Except.ok w) (ht : now ≤ t) :
    w.lastRPCTime = now - w.waitTime ∧ timerDuration w t ≤ 0 := by
  have hshape : ∃ x, w = mkInitial x now := by
    cases opts with
    | none =>
      simp [newVariable] at hw
      exact ⟨defaultWaitTimeout, hw.symm⟩
    | some o =>
      by_cases h0 : o.waitTime = 0
      · simp [newVariable, h0] at hw
        exact ⟨defaultWaitTimeout, hw.symm⟩
      · by_cases hneg : o.waitTime < 0
        · simp [newVariable, h0, hneg] at hw
        · simp [newVariable, h0, hneg] at hw
          exact ⟨o.waitTime, hw.symm⟩
  obtain ⟨x, hx⟩ := hshape
  subst hx
  constructor
  · simp [mkInitial]
  · simp [mkInitial, timerDuration]
    omega

/-- Claim C8, witness: the default-interval watcher built at time 5,
observed at time 7. -/
theorem c8_witness :
    (mkInitial defaultWaitTimeout 5).lastRPCTime =
      5 - (mkInitial defaultWaitTimeout 5).waitTime ∧
    timerDuration (mkInitial defaultWaitTimeout 5) 7 ≤ 0 := by
  exact c8_first_watch_immediate none 5 7 (mkInitial defaultWaitTimeout 5) rfl (by decide)

/-- Claim C9: lastRPCTime is recorded after every fetch attempt whatever
its outcome; and a fetch error that is not classified NotFound (an
unclassifiable status or any other code) is returned as-is with bytes,
isDeleted and updateTime untouched. -/
theorem c9_fatal_error_frame {Val : Type} (decode : List Nat → Option Val)
    (w : Watcher) (f : FetchOutcome) (rpcNow delNow : Int) (st : Option GrpcCode) :
    ((watchStep decode w f rpcNow delNow).1.lastRPCTime = rpcNow) ∧
    (fatalRPCError st = true →
      watchStep decode w (FetchOutcome.err st) rpcNow delNow =
        ({ w with lastRPCTime := rpcNow }, StepOutcome.fail (WatchError.rpc st))) := by
  constructor
  · cases f with
    | ok vpb =>
      cases hp : parseUpdateTime vpb with
      | error e => simp [watchStep, hp]
      | ok ut =>
        cases hc : (w.isDeleted || bytesNotEqual w.bytes (bytesFromProto vpb)) with
        | false => simp [watchStep, hp, hc]
        | true =>
          cases hd : decode (bytesFromProto vpb) with
          | none => simp [watchStep, hp, hc, hd]
          | some vv => simp [watchStep, hp, hc, hd]
    | err st2 =>
      cases hf : fatalRPCError st2 with
      | true => simp [watchStep, hf]
      | false =>
        cases hdel : w.isDeleted with
        | false => simp [watchStep, hf, hdel]
        | true => simp [watchStep, hf, hdel]
  · intro hf
    simp [watchStep, hf]

/-- Claim C9, witness: an unclassifiable error and an Internal-style code
13 at concrete states, both returned with the frame intact. -/
theorem c9_witness :
    ((watchStep (fun _ => (some 1 : Option Nat)) (Watcher.mk 600 0 [2] false 5)
        (FetchOutcome.err none) 7 8).1.lastRPCTime = 7) ∧
    (watchStep (fun _ => (some 1 : Option Nat)) (Watcher.mk 600 0 [2] false 5)
        (FetchOutcome.err (some (GrpcCode.other 13))) 7 8 =
      (Watcher.mk 600 7 [2] false 5,
        StepOutcome.fail (WatchError.rpc (some (GrpcCode.other 13))))) := by
  exact ⟨(c9_fatal_error_frame (fun _ => (some 1 : Option Nat)) (Watcher.mk 600 0 [2] false 5)
      (FetchOutcome.err none) 7 8 none).1,
    (c9_fatal_error_frame (fun _ => (some 1 : Option Nat)) (Watcher.mk 600 0 [2] false 5)
      (FetchOutcome.err (some (GrpcCode.other 13))) 7 8
      (some (GrpcCode.other 13))).2 (by decide)⟩

end RuntimeConfigurator

namespace MySQLMux

/-- Claim C10: OpenMySQLURL answers with an error — it total-functionally
returns a value and never invokes any opener — when the scheme is empty,
when the mux receiver is nil, or when no opener is registered for the
scheme; and it invokes the registered opener exactly when the lookup finds
one. -/
theorem c10_open_mysql_url {DB : Type} (mux : Option (URLMux DB)) (m : URLMux DB)
    (u : URL) (op : URL → SQLResult DB) :
    (u.scheme = "" → openMySQLURL mux u = SQLResult.errNoScheme) ∧
    ((openMySQLURL (none : Option (URLMux DB)) u).isErr = true) ∧
    (u.scheme ≠ "" → m.schemes.lookup u.scheme = none →
      openMySQLURL (some m) u = SQLResult.errNoProvider u.scheme) ∧
    (u.scheme ≠ "" → m.schemes.lookup u.scheme = some op →
      openMySQLURL (some m) u = op u) := by
  refine ⟨?_, ?_, ?_, ?_⟩
  · intro h
    simp [openMySQLURL, h]
  · by_cases h : u.scheme = ""
    · simp [openMySQLURL, h, SQLResult.isErr]
    · simp [openMySQLURL, h, SQLResult.isErr]
  · intro h hl
    simp [openMySQLURL, h, hl]
  · intro h hl
    simp [openMySQLURL, h, hl]

/-- Claim C10, witness: empty scheme errors, nil mux errors, an
unregistered scheme errors, and a registered opener is invoked. -/
theorem c10_witness :
    (openMySQLURL (some (URLMux.mk [])) { scheme := "", rest := "d" } =
      (SQLResult.errNoScheme : SQLResult Nat)) ∧
    ((openMySQLURL (none : Option (URLMux Nat)) { scheme := "m", rest := "d" }).isErr
      = true) ∧
    (openMySQLURL (some (URLMux.mk ([] : List (String × (URL → SQLResult Nat)))))
        { scheme := "m", rest := "d" } = SQLResult.errNoProvider "m") ∧
    (openMySQLURL (some (URLMux.mk [(("m" : String),
        fun _ => (SQLResult.ok 7 : SQLResult Nat))])) { scheme := "m", rest := "d" } =
      SQLResult.ok 7) := by
  refine ⟨?_, ?_, ?_, ?_⟩
  · exact (c10_open_mysql_url (some (URLMux.mk [])) (URLMux.mk [])
      { scheme := "", rest := "d" } (fun _ => SQLResult.ok 7)).1 rfl
  · exact (c10_open_mysql_url (none : Option (URLMux Nat)) (URLMux.mk [])
      { scheme := "m", rest := "d" } (fun _ => SQLResult.ok 7)).2.1
  · exact (c10_open_mysql_url (some (URLMux.mk ([] : List (String × (URL → SQLResult Nat)))))
      (URLMux.mk ([] : List (String × (URL → SQLResult Nat))))
      { scheme := "m", rest := "d" } (fun _ => SQLResult.ok 7)).2.2.1 (by decide) rfl
  · exact (c10_open_mysql_url
      (some (URLMux.mk [(("m" : String), fun _ => (SQLResult.ok 7 : SQLResult Nat))]))
      (URLMux.mk [(("m" : String), fun _ => (SQLResult.ok 7 : SQLResult Nat))])
      { scheme := "m", rest := "d" } (fun _ => (SQLResult.ok 7 : SQLResult Nat))).2.2.2
      (by decide) rfl

end MySQLMux
